import Mathlib

/-!
Verification development for `triton-cache-keygen.py`, a single-file tool that
derives a deterministic cache key for Triton kernel artifacts.

The program is embedded shallowly:
* `hashlib.sha256(...).hexdigest()` is embedded as an executable SHA-256 over
  byte lists (`Nat < 256`), with words as `Nat` reduced mod `2^32`;
  `str.encode()` is embedded as UTF-8 encoding of the string's characters.
* the external queries (`triton.compiler.compiler.triton_key()`, the driver's
  `get_current_target()`, the C-library `get_cache_invalidating_env_vars()`)
  and the process environment variable `TRITON_DEBUG` are inputs of the model,
  each fallible query an `Except PyErr` value.  `PyErr` distinguishes
  `ImportError` from every other exception because the source's `except`
  clauses do: `get_cache_invalidating_env_vars` catches only `ImportError`,
  while `get_current_target` catches `Exception`.
* `json.dumps(..., sort_keys=True)` with its default separators is embedded
  for the exact shapes it is applied to (a fixed three-key options dict, and
  a list of string pairs), including Python's `ensure_ascii` string escaping;
  Python's `sorted` on the dict items is embedded as `List.insertionSort` with
  the lexicographic pair order (the result is the unique sorted permutation,
  so any correct sort realizes it).
-/

namespace TritonKeygen

/-! ### SHA-256 over byte lists -/

def M32 : Nat := 4294967296

def rotr32 (k n : Nat) : Nat :=
  ((n >>> k) ||| (n <<< (32 - k))) % M32

def shr32 (k n : Nat) : Nat := n >>> k

def add32 (a b : Nat) : Nat := (a + b) % M32

def not32 (n : Nat) : Nat := n ^^^ 4294967295

/-- The 64 SHA-256 round constants (FIPS 180-4), written in decimal. -/
def shaK : List Nat :=
  [1116352408, 1899447441, 3049323471, 3921009573, 961987163, 1508970993,
   2453635748, 2870763221, 3624381080, 310598401, 607225278, 1426881987,
   1925078388, 2162078206, 2614888103, 3248222580, 3835390401, 4022224774,
   264347078, 604807628, 770255983, 1249150122, 1555081692, 1996064986,
   2554220882, 2821834349, 2952996808, 3210313671, 3336571891, 3584528711,
   113926993, 338241895, 666307205, 773529912, 1294757372, 1396182291,
   1695183700, 1986661051, 2177026350, 2456956037, 2730485921, 2820302411,
   3259730800, 3345764771, 3516065817, 3600352804, 4094571909, 275423344,
   430227734, 506948616, 659060556, 883997877, 958139571, 1322822218,
   1537002063, 1747873779, 1955562222, 2024104815, 2227730452, 2361852424,
   2428436474, 2756734187, 3204031479, 3329325298]

structure HashState where
  s0 : Nat
  s1 : Nat
  s2 : Nat
  s3 : Nat
  s4 : Nat
  s5 : Nat
  s6 : Nat
  s7 : Nat
deriving DecidableEq

/-- The eight SHA-256 initial hash values (FIPS 180-4), written in decimal. -/
def initState : HashState :=
  ⟨1779033703, 3144134277, 1013904242, 2773480762, 1359893119, 2600822924, 528734635, 1541459225⟩

/-- Group a list of bytes into 32-bit big-endian words. -/
def wordsBE : List Nat → List Nat
  | a :: b :: c :: d :: rest => (a * 16777216 + b * 65536 + c * 256 + d) :: wordsBE rest
  | _ => []

/-- Extend the 16-word message schedule by `fuel` more words. -/
def extendSchedule : Nat → Array Nat → Array Nat
  | 0, ws => ws
  | n + 1, ws =>
    let i := ws.size
    let w15 := ws.getD (i - 15) 0
    let w2 := ws.getD (i - 2) 0
    let w16 := ws.getD (i - 16) 0
    let w7 := ws.getD (i - 7) 0
    let a := (rotr32 7 w15) ^^^ (rotr32 18 w15) ^^^ (shr32 3 w15)
    let b := (rotr32 17 w2) ^^^ (rotr32 19 w2) ^^^ (shr32 10 w2)
    extendSchedule n (ws.push ((w16 + a + w7 + b) % M32))

def roundStep (st : HashState) (kw : Nat × Nat) : HashState :=
  let e1 := (rotr32 6 st.s4) ^^^ (rotr32 11 st.s4) ^^^ (rotr32 25 st.s4)
  let ch := (st.s4 &&& st.s5) ^^^ ((not32 st.s4) &&& st.s6)
  let t1 := (st.s7 + e1 + ch + kw.1 + kw.2) % M32
  let e0 := (rotr32 2 st.s0) ^^^ (rotr32 13 st.s0) ^^^ (rotr32 22 st.s0)
  let mj := (st.s0 &&& st.s1) ^^^ (st.s0 &&& st.s2) ^^^ (st.s1 &&& st.s2)
  let t2 := (e0 + mj) % M32
  ⟨(t1 + t2) % M32, st.s0, st.s1, st.s2, (st.s3 + t1) % M32, st.s4, st.s5, st.s6⟩

def compressChunk (st : HashState) (chunk : List Nat) : HashState :=
  let ws := extendSchedule 48 (wordsBE chunk).toArray
  let r := (shaK.zip ws.toList).foldl roundStep st
  ⟨add32 st.s0 r.s0, add32 st.s1 r.s1, add32 st.s2 r.s2, add32 st.s3 r.s3,
   add32 st.s4 r.s4, add32 st.s5 r.s5, add32 st.s6 r.s6, add32 st.s7 r.s7⟩

/-- 8-byte big-endian encoding of the bit length. -/
def len64BE (n : Nat) : List Nat :=
  [n / 72057594037927936 % 256, n / 281474976710656 % 256, n / 1099511627776 % 256,
   n / 4294967296 % 256, n / 16777216 % 256, n / 65536 % 256, n / 256 % 256, n % 256]

def padBytes (len : Nat) : List Nat :=
  128 :: List.replicate ((119 - len % 64) % 64) 0 ++ len64BE (len * 8)

/-- Split into 64-byte chunks (fuel-driven structural recursion; the fuel is
always at least the number of chunks when called with the list's length). -/
def chunks64 : Nat → List Nat → List (List Nat)
  | 0, _ => []
  | _, [] => []
  | fuel + 1, l => l.take 64 :: chunks64 fuel (l.drop 64)

def wordBytes (w : Nat) : List Nat :=
  [w / 16777216 % 256, w / 65536 % 256, w / 256 % 256, w % 256]

def digestOfState (st : HashState) : List Nat :=
  wordBytes st.s0 ++ wordBytes st.s1 ++ wordBytes st.s2 ++ wordBytes st.s3 ++
  wordBytes st.s4 ++ wordBytes st.s5 ++ wordBytes st.s6 ++ wordBytes st.s7

/-- SHA-256 digest (32 bytes) of a byte list. -/
def sha256 (msg : List Nat) : List Nat :=
  let padded := msg ++ padBytes msg.length
  digestOfState ((chunks64 padded.length padded).foldl compressChunk initState)

def hexChars : List Char := "0123456789abcdef".data

def hexDigit (n : Nat) : Char := hexChars.getD (n % 16) '0'

def byteHex (b : Nat) : List Char := [hexDigit (b / 16), hexDigit b]

/-- Lowercase hexadecimal rendering of a byte list (`hexdigest`). -/
def bytesToHex (l : List Nat) : String := String.mk (l.map byteHex).flatten

/-- UTF-8 encoding of a character as a list of bytes. -/
def utf8Bytes (c : Char) : List Nat :=
  let n := c.toNat
  if n < 128 then [n]
  else if n < 2048 then [192 + n / 64, 128 + n % 64]
  else if n < 65536 then [224 + n / 4096, 128 + n / 64 % 64, 128 + n % 64]
  else [240 + n / 262144, 128 + n / 4096 % 64, 128 + n / 64 % 64, 128 + n % 64]

/-- `s.encode()`: UTF-8 bytes of a string. -/
def strBytes (s : String) : List Nat := (s.data.map utf8Bytes).flatten

/-- `hashlib.sha256(s.encode()).hexdigest()`. -/
def sha256hex (s : String) : String := bytesToHex (sha256 (strBytes s))

/-! ### Python `json.dumps` fragments used by the program -/

def hex4 (n : Nat) : String :=
  String.mk [hexDigit (n / 4096), hexDigit (n / 256), hexDigit (n / 16), hexDigit n]

/-- Escaping of one character inside a JSON string literal, as CPython's
`json.dumps` does with its default `ensure_ascii=True`: printable ASCII other
than `"` and `\` is kept, control characters and all non-ASCII characters are
escaped (`\uXXXX`, with surrogate pairs beyond the BMP). -/
def escapeChar (c : Char) : String :=
  if c = '"' then "\\\""
  else if c = '\\' then "\\\\"
  else if c = '\n' then "\\n"
  else if c = '\t' then "\\t"
  else if c = '\r' then "\\r"
  else if c.toNat = 8 then "\\b"
  else if c.toNat = 12 then "\\f"
  else if c.toNat < 32 then "\\u" ++ hex4 c.toNat
  else if c.toNat ≤ 126 then String.mk [c]
  else if c.toNat < 65536 then "\\u" ++ hex4 c.toNat
  else "\\u" ++ hex4 (55296 + (c.toNat - 65536) / 1024) ++
       "\\u" ++ hex4 (56320 + (c.toNat - 65536) % 1024)

/-- A JSON string literal for `s`. -/
def jsonStr (s : String) : String :=
  "\"" ++ String.join (s.data.map escapeChar) ++ "\""

/-- Lexicographic order on string pairs: exactly how Python's `sorted` compares
the 2-tuples produced by `dict.items()`. -/
def pairLE (p q : String × String) : Prop :=
  p.1 < q.1 ∨ (p.1 = q.1 ∧ p.2 ≤ q.2)

instance : DecidableRel pairLE := fun p q => by
  unfold pairLE
  infer_instance

/-- `sorted(env_vars.items())`: the ascending reordering of the pairs.  Since
`pairLE` is a total antisymmetric order, the sorted permutation is unique, so
insertion sort produces the same list as Python's sort. -/
def sortedPairs (l : List (String × String)) : List (String × String) :=
  List.insertionSort pairLE l

/-- One pair rendered by `json.dumps` (a 2-tuple becomes a JSON array). -/
def jsonPairArr (p : String × String) : String :=
  "[" ++ jsonStr p.1 ++ ", " ++ jsonStr p.2 ++ "]"

/-- `json.dumps(sorted(env_vars.items()), sort_keys=True)`: the list of sorted
pairs with default separators (`sort_keys` is inert on lists of arrays). -/
def dumpsSortedEnv (l : List (String × String)) : String :=
  "[" ++ String.intercalate ", " ((sortedPairs l).map jsonPairArr) ++ "]"

def pyBool (b : Bool) : String := if b then "true" else "false"

/-! ### The program model -/

/-- Outcome of a fallible Python call, distinguishing `ImportError` (the only
class the env-vars query catches) from every other exception. -/
inductive PyErr where
  | importError
  | otherError
deriving DecidableEq

deriving instance DecidableEq for Except

/-- The record returned by `driver.active.get_current_target()`; `arch` is kept
in its string form (the f-string renders it). -/
structure TargetInfo where
  backend : String
  arch : String
  warp_size : Nat
deriving DecidableEq

/-- The external world of one run: results of the three Triton queries plus the
`TRITON_DEBUG` process environment variable (`none` when unset). -/
structure Inputs where
  triton_key_call : Except PyErr String
  target_call : Except PyErr TargetInfo
  env_vars_call : Except PyErr (List (String × String))
  triton_debug_env : Option String
deriving DecidableEq

/-- `get_current_target()`: format the target, or the sentinel on any
exception (the source catches `Exception`). -/
def get_current_target (res : Except PyErr TargetInfo) : String :=
  match res with
  | Except.ok t => t.backend ++ "-" ++ t.arch ++ "-" ++ toString t.warp_size
  | Except.error _ => "unknown-backend-0-0"

/-- `get_cache_invalidating_env_vars()`: returns the mapping; an `ImportError`
degrades to the empty mapping, any other exception propagates. -/
def get_cache_invalidating_env_vars (res : Except PyErr (List (String × String))) :
    Except PyErr (List (String × String)) :=
  match res with
  | Except.ok m => Except.ok m
  | Except.error PyErr.importError => Except.ok []
  | Except.error e => Except.error e

/-- `get_env_vars_for_cache()` just forwards the core variables. -/
def get_env_vars_for_cache (res : Except PyErr (List (String × String))) :
    Except PyErr (List (String × String)) :=
  get_cache_invalidating_env_vars res

/-- Python `source_hash or "dummy_source_content"`: `None` and the empty
string are falsy, any other string is returned unchanged. -/
def pyStrOr (a : Option String) (d : String) : String :=
  match a with
  | none => d
  | some s => if s = "" then d else s

/-- `os.getenv("TRITON_DEBUG", "0") == "1"`. -/
def debugFromEnv (v : Option String) : Bool := v.getD "0" == "1"

structure SourceComponent where
  content : String
  hash : String
deriving DecidableEq

structure BackendComponent where
  info : String
  hash : String
deriving DecidableEq

structure OptionsValues where
  num_warps : Nat
  num_stages : Nat
  debug : Bool
deriving DecidableEq

structure OptionsComponent where
  values : OptionsValues
  hash : String
deriving DecidableEq

/-- The environment component; the Python dict key for the first field is
`'variables'`, which is not a usable identifier in Lean. -/
structure EnvComponent where
  vars : List (String × String)
  hash : String
deriving DecidableEq

/-- The `components` dictionary built by `generate_triton_cache_key`. -/
structure Components where
  triton_key : String
  source : SourceComponent
  backend : BackendComponent
  options : OptionsComponent
  environment : EnvComponent
  final_composite : String
deriving DecidableEq

/-- `json.dumps(options, sort_keys=True)` for the fixed three-key options dict
(keys sorted alphabetically: debug, num_stages, num_warps; default separators). -/
def dumpsOptions (o : OptionsValues) : String :=
  "\x7b\"debug\": " ++ pyBool o.debug ++ ", \"num_stages\": " ++ toString o.num_stages ++
    ", \"num_warps\": " ++ toString o.num_warps ++ "\x7d"

/-- `generate_triton_cache_key(source_hash)`: the whole derivation.  A raising
`triton_key()` propagates (the function's own `except` clause re-raises), as
does a non-`ImportError` failure of the env-vars query; a failing target query
was already converted to the sentinel inside `get_current_target`. -/
def generate_triton_cache_key (source_hash : Option String) (inp : Inputs) :
    Except PyErr (String × Components) :=
  match inp.triton_key_call with
  | Except.error e => Except.error e
  | Except.ok triton_key_val =>
    let source_content := pyStrOr source_hash "dummy_source_content"
    let source_digest := sha256hex source_content
    let backend_info := get_current_target inp.target_call
    let backend_digest := sha256hex backend_info
    let options : OptionsValues := ⟨4, 3, debugFromEnv inp.triton_debug_env⟩
    let options_digest := sha256hex (dumpsOptions options)
    match get_env_vars_for_cache inp.env_vars_call with
    | Except.error e => Except.error e
    | Except.ok env_vars =>
      let env_digest := sha256hex (dumpsSortedEnv env_vars)
      let key_components :=
        triton_key_val ++ "-" ++ source_digest ++ "-" ++ backend_digest ++ "-" ++
          options_digest ++ "-" ++ env_digest
      Except.ok (sha256hex key_components,
        { triton_key := triton_key_val
          source := ⟨source_content, source_digest⟩
          backend := ⟨backend_info, backend_digest⟩
          options := ⟨options, options_digest⟩
          environment := ⟨env_vars, env_digest⟩
          final_composite := key_components })

/-- `format_component` on the flat string-to-string dicts the program prints:
`json.dumps(d, indent=2, sort_keys=True)`. -/
def dumpsIndentStrDict (kvs : List (String × String)) : String :=
  match sortedPairs kvs with
  | [] => "\x7b\x7d"
  | l => "\x7b\n" ++
      String.intercalate ",\n" (l.map (fun p => "  " ++ jsonStr p.1 ++ ": " ++ jsonStr p.2)) ++
      "\n\x7d"

/-- `format_component` on the options component: `json.dumps(..., indent=2,
sort_keys=True)` of its nested two-level dict. -/
def dumpsIndentOptions (o : OptionsComponent) : String :=
  "\x7b\n  \"hash\": " ++ jsonStr o.hash ++ ",\n  \"values\": \x7b\n    \"debug\": " ++
    pyBool o.values.debug ++ ",\n    \"num_stages\": " ++ toString o.values.num_stages ++
    ",\n    \"num_warps\": " ++ toString o.values.num_warps ++ "\n  \x7d\n\x7d"

/-- The strings printed (one per `print` call) in the verbose breakdown. -/
def verboseLines (c : Components) : List String :=
  ["\nCache Key Components Breakdown:",
   String.mk (List.replicate 40 '-'),
   "\n1. Triton Installation Fingerprint:",
   c.triton_key,
   "\n2. Source Code:",
   dumpsIndentStrDict [("content", c.source.content), ("hash", c.source.hash)],
   "\n3. Backend Configuration:",
   dumpsIndentStrDict [("hash", c.backend.hash), ("info", c.backend.info)],
   "\n4. Compilation Options:",
   dumpsIndentOptions c.options,
   "\n5. Environment Variables:",
   dumpsIndentStrDict c.environment.vars,
   "\n6. Final Composite String:",
   c.final_composite,
   "\n" ++ String.mk (List.replicate 40 '='),
   "Final Cache Key:"]

/-- The `__main__` block: run the derivation with no source argument; on
success print (optionally the breakdown and) the key and exit 0, on any
exception log and exit 1 printing nothing to stdout.  Result: (exit code,
strings printed to stdout). -/
def mainRun (verbose : Bool) (inp : Inputs) : Nat × List String :=
  match generate_triton_cache_key none inp with
  | Except.ok (cache_key, components) =>
    (0, (if verbose then verboseLines components else []) ++ ["\n" ++ cache_key])
  | Except.error _ => (1, [])

/-- A lowercase 64-character hexadecimal string. -/
def isHex64 (s : String) : Bool :=
  s.length == 64 && s.data.all (fun c => hexChars.contains c)

/-! ### Helper lemmas -/

theorem hexDigit_mem (n : Nat) : hexDigit n ∈ hexChars := by
  have h : n % 16 < hexChars.length := Nat.mod_lt n (by decide)
  rw [hexDigit, List.getD_eq_getElem hexChars _ h]
  exact List.getElem_mem h

theorem bytesToHex_length (l : List Nat) : (bytesToHex l).length = 2 * l.length := by
  show (l.map byteHex).flatten.length = 2 * l.length
  induction l with
  | nil => rfl
  | cons a t ih =>
    simp only [List.map_cons, List.flatten_cons, List.length_append, ih, List.length_cons]
    show 2 + 2 * t.length = 2 * (t.length + 1)
    omega

theorem bytesToHex_mem (l : List Nat) (c : Char) (h : c ∈ (bytesToHex l).data) : c ∈ hexChars := by
  have h2 : c ∈ (l.map byteHex).flatten := h
  rw [List.mem_flatten] at h2
  obtain ⟨s, hs, hc⟩ := h2
  rw [List.mem_map] at hs
  obtain ⟨b, _, rfl⟩ := hs
  simp only [byteHex, List.mem_cons, List.not_mem_nil, or_false] at hc
  rcases hc with rfl | rfl
  · exact hexDigit_mem _
  · exact hexDigit_mem _

theorem digestOfState_length (st : HashState) : (digestOfState st).length = 32 := by
  simp [digestOfState, wordBytes]

theorem sha256_length (msg : List Nat) : (sha256 msg).length = 32 :=
  digestOfState_length _

theorem isHex64_sha256hex (s : String) : isHex64 (sha256hex s) = true := by
  rw [isHex64, Bool.and_eq_true, beq_iff_eq, List.all_eq_true]
  constructor
  · show (bytesToHex (sha256 (strBytes s))).length = 64
    rw [bytesToHex_length, sha256_length]
  · intro c hc
    exact List.elem_eq_true_of_mem (bytesToHex_mem _ c hc)

instance : IsTotal (String × String) pairLE := ⟨by
  intro p q
  rcases lt_trichotomy p.1 q.1 with h | h | h
  · exact Or.inl (Or.inl h)
  · rcases le_total p.2 q.2 with h2 | h2
    · exact Or.inl (Or.inr ⟨h, h2⟩)
    · exact Or.inr (Or.inr ⟨h.symm, h2⟩)
  · exact Or.inr (Or.inl h)⟩

instance : IsTrans (String × String) pairLE := ⟨by
  intro p q r hpq hqr
  rcases hpq with h1 | ⟨e1, l1⟩ <;> rcases hqr with h2 | ⟨e2, l2⟩
  · exact Or.inl (lt_trans h1 h2)
  · exact Or.inl (lt_of_lt_of_eq h1 e2)
  · exact Or.inl (lt_of_eq_of_lt e1 h2)
  · exact Or.inr ⟨e1.trans e2, le_trans l1 l2⟩⟩

instance : IsAntisymm (String × String) pairLE := ⟨by
  intro p q hpq hqp
  rcases hpq with h1 | ⟨e1, l1⟩ <;> rcases hqp with h2 | ⟨e2, l2⟩
  · exact absurd (lt_trans h1 h2) (lt_irrefl _)
  · exact absurd (lt_of_lt_of_eq h1 e2) (lt_irrefl _)
  · exact absurd (lt_of_lt_of_eq h2 e1) (lt_irrefl _)
  · exact Prod.ext e1 (le_antisymm l1 l2)⟩

theorem sortedPairs_eq_of_perm {l1 l2 : List (String × String)} (h : l1.Perm l2) :
    sortedPairs l1 = sortedPairs l2 :=
  List.eq_of_perm_of_sorted
    ((List.perm_insertionSort pairLE l1).trans (h.trans (List.perm_insertionSort pairLE l2).symm))
    (List.sorted_insertionSort pairLE l1) (List.sorted_insertionSort pairLE l2)

theorem debugFromEnv_iff (v : Option String) : debugFromEnv v = true ↔ v = some "1" := by
  cases v with
  | none => simp [debugFromEnv]
  | some s => simp [debugFromEnv]

/-- Inversion of a successful derivation: every field of the returned
components record, and the key, in terms of the inputs. -/
theorem generate_ok_inv {src : Option String} {inp : Inputs} {k : String} {c : Components}
    (h : generate_triton_cache_key src inp = Except.ok (k, c)) :
    inp.triton_key_call = Except.ok c.triton_key ∧
    get_env_vars_for_cache inp.env_vars_call = Except.ok c.environment.vars ∧
    c.source.content = pyStrOr src "dummy_source_content" ∧
    c.source.hash = sha256hex c.source.content ∧
    c.backend.info = get_current_target inp.target_call ∧
    c.backend.hash = sha256hex c.backend.info ∧
    c.options.values = ⟨4, 3, debugFromEnv inp.triton_debug_env⟩ ∧
    c.options.hash = sha256hex (dumpsOptions c.options.values) ∧
    c.environment.hash = sha256hex (dumpsSortedEnv c.environment.vars) ∧
    c.final_composite = c.triton_key ++ "-" ++ c.source.hash ++ "-" ++ c.backend.hash ++ "-" ++
      c.options.hash ++ "-" ++ c.environment.hash ∧
    k = sha256hex c.final_composite := by
  unfold generate_triton_cache_key at h
  cases htk : inp.triton_key_call with
  | error e => rw [htk] at h; cases h
  | ok tk =>
    rw [htk] at h
    simp only [] at h
    cases henv : get_env_vars_for_cache inp.env_vars_call with
    | error e => rw [henv] at h; cases h
    | ok ev =>
      rw [henv] at h
      simp only [Except.ok.injEq, Prod.mk.injEq] at h
      obtain ⟨hk, hc⟩ := h
      subst hc
      subst hk
      exact ⟨rfl, rfl, rfl, rfl, rfl, rfl, rfl, rfl, rfl, rfl, rfl⟩

/-! ### Sample run used by several witnesses (values cross-checked against
CPython's `hashlib`/`json` on the same inputs) -/

def wIn : Inputs :=
  { triton_key_call := Except.ok "triton-key-3.0.0"
    target_call := Except.ok ⟨"cuda", "90", 32⟩
    env_vars_call := Except.ok [("TRITON_CACHE_DIR", "/tmp/cache"), ("ALLOW_TF32", "1")]
    triton_debug_env := none }

def wSrcHash : String := sha256hex "kernel_body"

def wBackHash : String := sha256hex "cuda-90-32"

def wOptHash : String := sha256hex (dumpsOptions ⟨4, 3, false⟩)

def wEnvHash : String :=
  sha256hex (dumpsSortedEnv [("TRITON_CACHE_DIR", "/tmp/cache"), ("ALLOW_TF32", "1")])

def wComposite : String :=
  "triton-key-3.0.0" ++ "-" ++ wSrcHash ++ "-" ++ wBackHash ++ "-" ++ wOptHash ++ "-" ++ wEnvHash

def wKey : String := sha256hex wComposite

def wComps : Components :=
  { triton_key := "triton-key-3.0.0"
    source := ⟨"kernel_body", wSrcHash⟩
    backend := ⟨"cuda-90-32", wBackHash⟩
    options := ⟨⟨4, 3, false⟩, wOptHash⟩
    environment := ⟨[("TRITON_CACHE_DIR", "/tmp/cache"), ("ALLOW_TF32", "1")], wEnvHash⟩
    final_composite := wComposite }

/-! ### The claims -/

set_option maxRecDepth 100000

/-- C1: for every successful derivation, the final cache key equals the
SHA-256 hexadecimal digest of the composite string joining, with separator
"-", in the fixed order: the toolchain fingerprint (included as its string
form, not separately hashed), the source digest, the backend digest, the
options digest, and the environment digest. -/
theorem C1_final_key_is_sha256_of_composite (src : Option String) (inp : Inputs)
    (k : String) (c : Components)
    (h : generate_triton_cache_key src inp = Except.ok (k, c)) :
    c.final_composite = c.triton_key ++ "-" ++ c.source.hash ++ "-" ++ c.backend.hash ++ "-" ++
      c.options.hash ++ "-" ++ c.environment.hash ∧
    k = sha256hex c.final_composite ∧
    inp.triton_key_call = Except.ok c.triton_key := by
  obtain ⟨h1, _, _, _, _, _, _, _, _, h10, h11⟩ := generate_ok_inv h
  exact ⟨h10, h11, h1⟩

theorem C1_witness :
    generate_triton_cache_key (some "kernel_body") wIn = Except.ok (wKey, wComps) ∧
    wComps.final_composite = wComps.triton_key ++ "-" ++ wComps.source.hash ++ "-" ++
      wComps.backend.hash ++ "-" ++ wComps.options.hash ++ "-" ++ wComps.environment.hash ∧
    wKey = sha256hex wComps.final_composite := by
  have h : generate_triton_cache_key (some "kernel_body") wIn = Except.ok (wKey, wComps) := rfl
  obtain ⟨h1, h2, _⟩ := C1_final_key_is_sha256_of_composite (some "kernel_body") wIn wKey wComps h
  exact ⟨h, h1, h2⟩

/-- C2: the derivation is deterministic: two runs with the same toolchain
fingerprint, the same source argument, the same backend descriptor (the
string produced by the target query, sentinel included), the same
debug-toggle environment value, and the same environment-variable mapping
(as delivered by the registry query, the ImportError degradation included)
return the identical final key and component record.  The raw query outcomes
may differ — only the descriptor and the delivered mapping matter. -/
theorem C2_deterministic (src1 src2 : Option String) (i1 i2 : Inputs)
    (htk : i1.triton_key_call = i2.triton_key_call)
    (hsrc : src1 = src2)
    (htgt : get_current_target i1.target_call = get_current_target i2.target_call)
    (hdbg : i1.triton_debug_env = i2.triton_debug_env)
    (henv : get_env_vars_for_cache i1.env_vars_call = get_env_vars_for_cache i2.env_vars_call) :
    generate_triton_cache_key src1 i1 = generate_triton_cache_key src2 i2 := by
  unfold generate_triton_cache_key
  rw [htk, hsrc, htgt, hdbg, henv]

def c2In1 : Inputs :=
  { triton_key_call := Except.ok "tk2"
    target_call := Except.error PyErr.importError
    env_vars_call := Except.error PyErr.importError
    triton_debug_env := none }

def c2In2 : Inputs :=
  { triton_key_call := Except.ok "tk2"
    target_call := Except.error PyErr.otherError
    env_vars_call := Except.ok []
    triton_debug_env := none }

theorem C2_witness :
    generate_triton_cache_key (some "kern2") c2In1 =
      generate_triton_cache_key (some "kern2") c2In2 :=
  C2_deterministic _ _ _ _ rfl rfl rfl rfl rfl

def c3In : Inputs :=
  { triton_key_call := Except.ok "tkF"
    target_call := Except.ok ⟨"cuda", "90", 32⟩
    env_vars_call := Except.ok []
    triton_debug_env := none }

def emptyEnvHash : String := sha256hex (dumpsSortedEnv [])

def c3SrcHash : String := sha256hex "dummy_source_content"

def c3Composite : String :=
  "tkF" ++ "-" ++ c3SrcHash ++ "-" ++ wBackHash ++ "-" ++ wOptHash ++ "-" ++ emptyEnvHash

def c3Key : String := sha256hex c3Composite

def c3Comps : Components :=
  { triton_key := "tkF"
    source := ⟨"dummy_source_content", c3SrcHash⟩
    backend := ⟨"cuda-90-32", wBackHash⟩
    options := ⟨⟨4, 3, false⟩, wOptHash⟩
    environment := ⟨[], emptyEnvHash⟩
    final_composite := c3Composite }

/-- C3 (counterexample): with the empty string supplied as source, the
recorded source digest is not the digest of the supplied text (it is the
placeholder's digest), refuting the claim's universal "when supplied". -/
theorem C3_counterexample :
    generate_triton_cache_key (some "") c3In = Except.ok (c3Key, c3Comps) ∧
    c3Comps.source.hash ≠ sha256hex "" := by
  refine ⟨rfl, ?_⟩
  decide

/-- C3 (amended): the component record holds both the recorded content and
its SHA-256 hex digest over the UTF-8 encoding; the recorded content — and
hence the digest — is `source_text` when supplied and non-empty, and the
placeholder "dummy_source_content" when `source_text` is absent or empty. -/
theorem C3_source_digest (src : Option String) (inp : Inputs) (k : String) (c : Components)
    (h : generate_triton_cache_key src inp = Except.ok (k, c)) :
    c.source.hash = sha256hex c.source.content ∧
    (∀ s : String, src = some s → s ≠ "" →
      c.source.content = s ∧ c.source.hash = sha256hex s) ∧
    ((src = none ∨ src = some "") →
      c.source.content = "dummy_source_content" ∧
      c.source.hash = sha256hex "dummy_source_content") := by
  obtain ⟨_, _, h3, h4, _⟩ := generate_ok_inv h
  refine ⟨h4, ?_, ?_⟩
  · intro s hs hne
    subst hs
    have hc : c.source.content = s := by
      rw [h3]
      simp [pyStrOr, hne]
    exact ⟨hc, by rw [h4, hc]⟩
  · intro hcase
    have hc : c.source.content = "dummy_source_content" := by
      rcases hcase with rfl | rfl
      · exact h3
      · rw [h3]
        simp [pyStrOr]
    exact ⟨hc, by rw [h4, hc]⟩

theorem C3_witness :
    generate_triton_cache_key (some "kernel_body") wIn = Except.ok (wKey, wComps) ∧
    "kernel_body" ≠ "" ∧
    wComps.source.content = "kernel_body" ∧
    wComps.source.hash = sha256hex "kernel_body" := by
  have h : generate_triton_cache_key (some "kernel_body") wIn = Except.ok (wKey, wComps) := rfl
  obtain ⟨_, h2, _⟩ := C3_source_digest (some "kernel_body") wIn wKey wComps h
  obtain ⟨hc, hh⟩ := h2 "kernel_body" rfl (by decide)
  exact ⟨h, by decide, hc, hh⟩

/-- C4: the options component is the fixed mapping with num_warps 4,
num_stages 3 and a debug flag that is true exactly when TRITON_DEBUG has the
value "1" (unset or anything else gives false); its digest is the SHA-256 hex
digest of the sorted-keys JSON serialization of that mapping. -/
theorem C4_options_component (src : Option String) (inp : Inputs) (k : String) (c : Components)
    (h : generate_triton_cache_key src inp = Except.ok (k, c)) :
    c.options.values.num_warps = 4 ∧
    c.options.values.num_stages = 3 ∧
    (c.options.values.debug = true ↔ inp.triton_debug_env = some "1") ∧
    c.options.hash = sha256hex (if c.options.values.debug
      then "\x7b\"debug\": true, \"num_stages\": 3, \"num_warps\": 4\x7d"
      else "\x7b\"debug\": false, \"num_stages\": 3, \"num_warps\": 4\x7d") := by
  obtain ⟨_, _, _, _, _, _, h7, h8, _⟩ := generate_ok_inv h
  refine ⟨by rw [h7], by rw [h7], ?_, ?_⟩
  · rw [h7]
    exact debugFromEnv_iff _
  · rw [h8, h7]
    cases debugFromEnv inp.triton_debug_env <;> rfl

def dIn : Inputs :=
  { triton_key_call := Except.ok "tkD"
    target_call := Except.ok ⟨"cuda", "90", 32⟩
    env_vars_call := Except.ok []
    triton_debug_env := some "1" }

def dSrcHash : String := sha256hex "kern_d"

def dOptHash : String := sha256hex (dumpsOptions ⟨4, 3, true⟩)

def dComposite : String :=
  "tkD" ++ "-" ++ dSrcHash ++ "-" ++ wBackHash ++ "-" ++ dOptHash ++ "-" ++ emptyEnvHash

def dKey : String := sha256hex dComposite

def dComps : Components :=
  { triton_key := "tkD"
    source := ⟨"kern_d", dSrcHash⟩
    backend := ⟨"cuda-90-32", wBackHash⟩
    options := ⟨⟨4, 3, true⟩, dOptHash⟩
    environment := ⟨[], emptyEnvHash⟩
    final_composite := dComposite }

theorem C4_witness :
    generate_triton_cache_key (some "kern_d") dIn = Except.ok (dKey, dComps) ∧
    dComps.options.values.num_warps = 4 ∧
    dComps.options.values.num_stages = 3 ∧
    (dComps.options.values.debug = true ↔ dIn.triton_debug_env = some "1") ∧
    dComps.options.hash =
      sha256hex "\x7b\"debug\": true, \"num_stages\": 3, \"num_warps\": 4\x7d" := by
  have h : generate_triton_cache_key (some "kern_d") dIn = Except.ok (dKey, dComps) := rfl
  obtain ⟨h1, h2, h3, h4⟩ := C4_options_component (some "kern_d") dIn dKey dComps h
  exact ⟨h, h1, h2, h3, h4.trans rfl⟩

/-- C5: the environment digest is insensitive to mapping order: permuting the
environment pairs leaves the serialized component, its digest and (other
inputs fixed) the final key identical, because serialization sorts. -/
theorem C5_env_order_independent (src : Option String) (inp : Inputs)
    (l1 l2 : List (String × String)) (k1 k2 : String) (c1 c2 : Components)
    (hperm : l1.Perm l2)
    (h1 : generate_triton_cache_key src { inp with env_vars_call := Except.ok l1 } =
      Except.ok (k1, c1))
    (h2 : generate_triton_cache_key src { inp with env_vars_call := Except.ok l2 } =
      Except.ok (k2, c2)) :
    dumpsSortedEnv l1 = dumpsSortedEnv l2 ∧
    c1.environment.hash = c2.environment.hash ∧
    k1 = k2 := by
  have hdump : dumpsSortedEnv l1 = dumpsSortedEnv l2 := by
    unfold dumpsSortedEnv
    rw [sortedPairs_eq_of_perm hperm]
  cases inp with
  | mk tkc tgc evc dbg =>
    obtain ⟨a1, b1, s1, sh1, bi1, bh1, o1, oh1, e1, f1, k1e⟩ := generate_ok_inv h1
    obtain ⟨a2, b2, s2, sh2, bi2, bh2, o2, oh2, e2, f2, k2e⟩ := generate_ok_inv h2
    have hv1 : c1.environment.vars = l1 := by
      simpa [get_env_vars_for_cache, get_cache_invalidating_env_vars] using b1.symm
    have hv2 : c2.environment.vars = l2 := by
      simpa [get_env_vars_for_cache, get_cache_invalidating_env_vars] using b2.symm
    have htk : c1.triton_key = c2.triton_key := by
      have := a1.symm.trans a2
      simpa using this
    have hsrc_c : c1.source.content = c2.source.content := by rw [s1, s2]
    have hsrc_h : c1.source.hash = c2.source.hash := by rw [sh1, sh2, hsrc_c]
    have hb_i : c1.backend.info = c2.backend.info := by rw [bi1, bi2]
    have hb_h : c1.backend.hash = c2.backend.hash := by rw [bh1, bh2, hb_i]
    have ho_v : c1.options.values = c2.options.values := by rw [o1, o2]
    have ho_h : c1.options.hash = c2.options.hash := by rw [oh1, oh2, ho_v]
    have he_h : c1.environment.hash = c2.environment.hash := by
      rw [e1, e2, hv1, hv2, hdump]
    have hf : c1.final_composite = c2.final_composite := by
      rw [f1, f2, htk, hsrc_h, hb_h, ho_h, he_h]
    exact ⟨hdump, he_h, by rw [k1e, k2e, hf]⟩

def bIn : Inputs :=
  { triton_key_call := Except.ok "tkB"
    target_call := Except.ok ⟨"cuda", "90", 32⟩
    env_vars_call := Except.ok []
    triton_debug_env := none }

def c5L1 : List (String × String) := [("B", "2"), ("A", "1")]

def c5L2 : List (String × String) := [("A", "1"), ("B", "2")]

def c5SrcHash : String := sha256hex "kern_b"

def c5EnvHash1 : String := sha256hex (dumpsSortedEnv c5L1)

def c5EnvHash2 : String := sha256hex (dumpsSortedEnv c5L2)

def c5Composite1 : String :=
  "tkB" ++ "-" ++ c5SrcHash ++ "-" ++ wBackHash ++ "-" ++ wOptHash ++ "-" ++ c5EnvHash1

def c5Composite2 : String :=
  "tkB" ++ "-" ++ c5SrcHash ++ "-" ++ wBackHash ++ "-" ++ wOptHash ++ "-" ++ c5EnvHash2

def c5Key1 : String := sha256hex c5Composite1

def c5Key2 : String := sha256hex c5Composite2

def c5Comps1 : Components :=
  { triton_key := "tkB"
    source := ⟨"kern_b", c5SrcHash⟩
    backend := ⟨"cuda-90-32", wBackHash⟩
    options := ⟨⟨4, 3, false⟩, wOptHash⟩
    environment := ⟨c5L1, c5EnvHash1⟩
    final_composite := c5Composite1 }

def c5Comps2 : Components :=
  { triton_key := "tkB"
    source := ⟨"kern_b", c5SrcHash⟩
    backend := ⟨"cuda-90-32", wBackHash⟩
    options := ⟨⟨4, 3, false⟩, wOptHash⟩
    environment := ⟨c5L2, c5EnvHash2⟩
    final_composite := c5Composite2 }

theorem C5_witness :
    List.Perm c5L1 c5L2 ∧
    generate_triton_cache_key (some "kern_b") { bIn with env_vars_call := Except.ok c5L1 } =
      Except.ok (c5Key1, c5Comps1) ∧
    generate_triton_cache_key (some "kern_b") { bIn with env_vars_call := Except.ok c5L2 } =
      Except.ok (c5Key2, c5Comps2) ∧
    dumpsSortedEnv c5L1 = dumpsSortedEnv c5L2 ∧
    c5Comps1.environment.hash = c5Comps2.environment.hash ∧
    c5Key1 = c5Key2 := by
  have hp : List.Perm c5L1 c5L2 := by decide
  have h1 : generate_triton_cache_key (some "kern_b")
      { bIn with env_vars_call := Except.ok c5L1 } = Except.ok (c5Key1, c5Comps1) := rfl
  have h2 : generate_triton_cache_key (some "kern_b")
      { bIn with env_vars_call := Except.ok c5L2 } = Except.ok (c5Key2, c5Comps2) := rfl
  obtain ⟨d, eh, kk⟩ := C5_env_order_independent (some "kern_b") bIn c5L1 c5L2
    c5Key1 c5Key2 c5Comps1 c5Comps2 hp h1 h2
  exact ⟨hp, h1, h2, d, eh, kk⟩

def c6In : Inputs :=
  { triton_key_call := Except.ok "tk6"
    target_call := Except.ok ⟨"cuda", "90", 32⟩
    env_vars_call := Except.error PyErr.otherError
    triton_debug_env := none }

/-- C6 (counterexample): an environment-variable query failure that is not an
ImportError aborts the whole derivation (no key is produced), refuting the
claim's "fails for any reason ... does not abort". -/
theorem C6_counterexample :
    generate_triton_cache_key (some "kernel_src") c6In = Except.error PyErr.otherError := rfl

/-- C6 (amended): if the environment-variable registry query fails with an
ImportError (the registry is unavailable to import), derivation does not
abort: an empty mapping is substituted and the run is identical to one whose
environment query returned the empty mapping. -/
theorem C6_import_error_degrades (src : Option String) (inp : Inputs)
    (h : inp.env_vars_call = Except.error PyErr.importError) :
    generate_triton_cache_key src inp =
      generate_triton_cache_key src { inp with env_vars_call := Except.ok [] } := by
  cases inp
  dsimp only at h
  subst h
  rfl

def c6wIn : Inputs :=
  { triton_key_call := Except.ok "tkE"
    target_call := Except.ok ⟨"cuda", "90", 32⟩
    env_vars_call := Except.error PyErr.importError
    triton_debug_env := none }

theorem C6_witness :
    c6wIn.env_vars_call = Except.error PyErr.importError ∧
    generate_triton_cache_key (some "kern_e") c6wIn =
      generate_triton_cache_key (some "kern_e") { c6wIn with env_vars_call := Except.ok [] } :=
  ⟨rfl, C6_import_error_degrades (some "kern_e") c6wIn rfl⟩

/-- C7: if the hardware/driver query fails for any reason, the sentinel
descriptor "unknown-backend-0-0" is substituted, the failure does not
propagate (the derivation still succeeds when nothing else fails), and the
backend digest is the SHA-256 hex digest of the sentinel. -/
theorem C7_backend_sentinel (src : Option String) (inp : Inputs) (e : PyErr)
    (tk : String) (ev : List (String × String))
    (htgt : inp.target_call = Except.error e)
    (htk : inp.triton_key_call = Except.ok tk)
    (henv : get_env_vars_for_cache inp.env_vars_call = Except.ok ev) :
    get_current_target inp.target_call = "unknown-backend-0-0" ∧
    (generate_triton_cache_key src inp).isOk = true ∧
    ∀ k c, generate_triton_cache_key src inp = Except.ok (k, c) →
      c.backend.info = "unknown-backend-0-0" ∧
      c.backend.hash = sha256hex "unknown-backend-0-0" := by
  have hs : get_current_target inp.target_call = "unknown-backend-0-0" := by
    rw [htgt]
    rfl
  refine ⟨hs, ?_, ?_⟩
  · unfold generate_triton_cache_key
    rw [htk, henv]
    rfl
  · intro k c hkc
    obtain ⟨_, _, _, _, bi, bh, _⟩ := generate_ok_inv hkc
    refine ⟨bi.trans hs, ?_⟩
    rw [bh, bi.trans hs]

def c7In : Inputs :=
  { triton_key_call := Except.ok "tkC"
    target_call := Except.error PyErr.otherError
    env_vars_call := Except.ok []
    triton_debug_env := none }

def c7SrcHash : String := sha256hex "kern_c"

def c7BackHash : String := sha256hex "unknown-backend-0-0"

def c7Composite : String :=
  "tkC" ++ "-" ++ c7SrcHash ++ "-" ++ c7BackHash ++ "-" ++ wOptHash ++ "-" ++ emptyEnvHash

def c7Key : String := sha256hex c7Composite

def c7Comps : Components :=
  { triton_key := "tkC"
    source := ⟨"kern_c", c7SrcHash⟩
    backend := ⟨"unknown-backend-0-0", c7BackHash⟩
    options := ⟨⟨4, 3, false⟩, wOptHash⟩
    environment := ⟨[], emptyEnvHash⟩
    final_composite := c7Composite }

theorem C7_witness :
    c7In.target_call = Except.error PyErr.otherError ∧
    get_current_target c7In.target_call = "unknown-backend-0-0" ∧
    (generate_triton_cache_key (some "kern_c") c7In).isOk = true ∧
    generate_triton_cache_key (some "kern_c") c7In = Except.ok (c7Key, c7Comps) ∧
    c7Comps.backend.info = "unknown-backend-0-0" ∧
    c7Comps.backend.hash = sha256hex "unknown-backend-0-0" := by
  have h : generate_triton_cache_key (some "kern_c") c7In = Except.ok (c7Key, c7Comps) := rfl
  obtain ⟨hs, hok, hall⟩ :=
    C7_backend_sentinel (some "kern_c") c7In PyErr.otherError "tkC" [] rfl rfl rfl
  obtain ⟨hb1, hb2⟩ := hall c7Key c7Comps h
  exact ⟨rfl, hs, hok, h, hb1, hb2⟩

def c8cexIn : Inputs :=
  { triton_key_call := Except.ok "tk8"
    target_call := Except.ok ⟨"hip", "gfx90a", 64⟩
    env_vars_call := Except.error PyErr.otherError
    triton_debug_env := none }

/-- C8 (counterexample): a run whose toolchain query succeeds but whose
environment query raises a non-ImportError also propagates to the top level
(derive errors, the CLI exits 1 with nothing on stdout), refuting "this is
the only component-gathering failure that propagates". -/
theorem C8_counterexample :
    c8cexIn.triton_key_call = Except.ok "tk8" ∧
    generate_triton_cache_key none c8cexIn = Except.error PyErr.otherError ∧
    mainRun false c8cexIn = (1, []) :=
  ⟨rfl, rfl, rfl⟩

/-- C8 (amended): if the toolchain-fingerprint query raises, the whole
derivation fails with that error and the CLI exits with status 1 printing no
key on stdout; a derivation can fail only because the toolchain query raised
or because the environment query raised a non-ImportError. -/
theorem C8_toolchain_fatal (src : Option String) (inp : Inputs) (v : Bool) (e : PyErr)
    (h : inp.triton_key_call = Except.error e) :
    generate_triton_cache_key src inp = Except.error e ∧
    mainRun v inp = (1, []) ∧
    (∀ i : Inputs, (generate_triton_cache_key src i).isOk = false →
      i.triton_key_call = Except.error PyErr.importError ∨
      i.triton_key_call = Except.error PyErr.otherError ∨
      i.env_vars_call = Except.error PyErr.otherError) := by
  have hgen : generate_triton_cache_key src inp = Except.error e := by
    unfold generate_triton_cache_key
    rw [h]
  have hg0 : generate_triton_cache_key none inp = Except.error e := by
    unfold generate_triton_cache_key
    rw [h]
  have hmain : mainRun v inp = (1, []) := by
    unfold mainRun
    rw [hg0]
  refine ⟨hgen, hmain, ?_⟩
  intro i hfail
  cases i with
  | mk tkc tgc evc dbg =>
    cases tkc with
    | error e2 =>
      cases e2
      · exact Or.inl rfl
      · exact Or.inr (Or.inl rfl)
    | ok tk =>
      cases evc with
      | ok l =>
        exfalso
        unfold generate_triton_cache_key at hfail
        simp [get_env_vars_for_cache, get_cache_invalidating_env_vars] at hfail
        exact Bool.noConfusion hfail
      | error ee =>
        cases ee with
        | importError =>
          exfalso
          unfold generate_triton_cache_key at hfail
          simp [get_env_vars_for_cache, get_cache_invalidating_env_vars] at hfail
          exact Bool.noConfusion hfail
        | otherError => exact Or.inr (Or.inr rfl)

def c8In : Inputs :=
  { triton_key_call := Except.error PyErr.otherError
    target_call := Except.ok ⟨"cuda", "90", 32⟩
    env_vars_call := Except.ok []
    triton_debug_env := none }

theorem C8_witness :
    c8In.triton_key_call = Except.error PyErr.otherError ∧
    generate_triton_cache_key none c8In = Except.error PyErr.otherError ∧
    mainRun false c8In = (1, []) := by
  obtain ⟨hg, hm, _⟩ := C8_toolchain_fatal none c8In false PyErr.otherError rfl
  exact ⟨rfl, hg, hm⟩

/-- C9: every successful derivation returns a final key that is a lowercase
hexadecimal string of exactly 64 characters, as are the four per-component
digests stored in the components record. -/
theorem C9_hex64_outputs (src : Option String) (inp : Inputs) (k : String) (c : Components)
    (h : generate_triton_cache_key src inp = Except.ok (k, c)) :
    isHex64 k = true ∧ isHex64 c.source.hash = true ∧ isHex64 c.backend.hash = true ∧
    isHex64 c.options.hash = true ∧ isHex64 c.environment.hash = true := by
  obtain ⟨_, _, _, sh, _, bh, _, oh, eh, _, ke⟩ := generate_ok_inv h
  refine ⟨?_, ?_, ?_, ?_, ?_⟩
  · rw [ke]; exact isHex64_sha256hex _
  · rw [sh]; exact isHex64_sha256hex _
  · rw [bh]; exact isHex64_sha256hex _
  · rw [oh]; exact isHex64_sha256hex _
  · rw [eh]; exact isHex64_sha256hex _

theorem C9_witness :
    generate_triton_cache_key (some "kernel_body") wIn = Except.ok (wKey, wComps) ∧
    isHex64 wKey = true ∧ isHex64 wComps.source.hash = true ∧
    isHex64 wComps.backend.hash = true ∧ isHex64 wComps.options.hash = true ∧
    isHex64 wComps.environment.hash = true := by
  have h : generate_triton_cache_key (some "kernel_body") wIn = Except.ok (wKey, wComps) := rfl
  obtain ⟨h1, h2, h3, h4, h5⟩ := C9_hex64_outputs (some "kernel_body") wIn wKey wComps h
  exact ⟨h, h1, h2, h3, h4, h5⟩

/-- C10: calling the derivation with the empty string as source behaves
identically to calling it with the source absent: the truthiness fallback
replaces an empty string by the placeholder, so content, digests and final
key coincide. -/
theorem C10_empty_source_equals_none (inp : Inputs) :
    generate_triton_cache_key (some "") inp = generate_triton_cache_key none inp := rfl

end TritonKeygen
